import Mathlib

/-!
Shallow embedding of the FakeYou.js TTS wrapper.

The definitions below translate the repository's JavaScript sources into Lean:

* `getAudioUrl`, `findModels`, `getModel`, `findModelByName`, `generateTTS`
  come from `src/index.js` (class `FakeYouTTS`);
* `pollRun`/`pollCount` embed the `pollUntilComplete` loop of `src/test.js`
  (the unbounded `while (!isComplete)` loop is embedded as a fuel-indexed
  unfolding: `pollCount resp fuel = some k` means the loop terminated after
  exactly `k` status queries within `fuel` iterations, `none` means it is
  still running after `fuel` iterations);
* `ctsInner`/`convertTextToSpeech` embed the `convertTextToSpeech` callable
  of the Firebase-functions source file (`src/unnamed/part_000`), with the
  uuid supply made explicit (`supply : Nat → String`; the payload draws
  `supply 0`; the third result component counts uuid draws) and the outbound
  HTTP posts recorded as a trace (`List Payload`).

JavaScript string truthiness is modelled by `≠ ""` (a missing/empty field is
the empty string).  Remote calls are oracles passed as parameters; a remote
call that throws (or resolves to a falsy value where an object is expected)
is the `none`/`Except.error` case of the oracle.
-/

set_option maxHeartbeats 1000000

namespace FakeYouJS

/-- Character-list test: is `needle` a leading segment of `hay`? -/
def leadMatch : List Char → List Char → Bool
  | [], _ => true
  | _ :: _, [] => false
  | a :: as, b :: bs => a == b && leadMatch as bs

/-- Does `needle` occur somewhere in the character list?  Models JavaScript
`String.prototype.includes`. -/
def hasSub (needle : List Char) : List Char → Bool
  | [] => needle.isEmpty
  | c :: cs => leadMatch needle (c :: cs) || hasSub needle cs

/-- JavaScript `s.includes(sub)`. -/
def strContains (s sub : String) : Bool := hasSub sub.data s.data

/-- JavaScript `s.endsWith(post)`, computed on the character lists. -/
def strEndsWith (s post : String) : Bool := leadMatch post.data.reverse s.data.reverse

/-- ASCII lower-casing of one character (JavaScript `toLowerCase` on the
ASCII range, which is all the sources compare). -/
def charLower (c : Char) : Char :=
  if 65 ≤ c.toNat ∧ c.toNat ≤ 90 then Char.ofNat (c.toNat + 32) else c

/-- JavaScript `s.toLowerCase()`, computed on the character list. -/
def strToLower (s : String) : String := String.mk (s.data.map charLower)

/-- JavaScript `s.trim()`: strip whitespace from both ends. -/
def strTrim (s : String) : String :=
  String.mk (((s.data.dropWhile Char.isWhitespace).reverse.dropWhile Char.isWhitespace).reverse)

/-- Constant from `src/index.js` line 17: the CDN origin introduced in November 2024. -/
def CDN_URL : String := "https://cdn-2.fakeyou.com"

/-- The inference object consumed by `getAudioUrl` (`src/index.js` 262-286).
A missing field is the empty string (falsy in JavaScript). -/
structure Inference where
  publicBucketWavAudioPath : String
  resourceUrl : String
deriving DecidableEq

/-- Leftmost suffix of the character list that starts with `/media/`.
This is where the regex `\/media\/.*\.wav$` can begin matching. -/
def mediaSuffix : List Char → Option (List Char)
  | [] => none
  | c :: cs => if leadMatch "/media/".data (c :: cs) then some (c :: cs) else mediaSuffix cs

/-- JavaScript `url.match(/\/media\/.*\.wav$/)` (first component of the match):
because the pattern is anchored at the end of the string, a match exists iff
the string ends with `.wav` and contains `/media/`, and the matched substring
runs from the leftmost `/media/` to the end.  (`.` is modelled as any
character; URLs contain no newlines.) -/
def matchMediaWav (url : String) : Option String :=
  if strEndsWith url ".wav" then Option.map (fun l => String.mk l) (mediaSuffix url.data)
  else none

/-- Embeds `FakeYouTTS.getAudioUrl` (`src/index.js` 262-286). -/
def getAudioUrl (inf : Option Inference) : Option String :=
  match inf with
  | none => none
  | some i =>
    if i.publicBucketWavAudioPath ≠ "" then
      some (CDN_URL ++ i.publicBucketWavAudioPath)
    else if i.resourceUrl ≠ "" then
      if strContains i.resourceUrl "storage.googleapis.com" then
        match matchMediaWav i.resourceUrl with
        | some s => some (CDN_URL ++ s)
        | none => some i.resourceUrl
      else some i.resourceUrl
    else none

/-- A voice model as used by the model-resolver methods of `src/index.js`.
A missing title is the empty string (falsy in JavaScript). -/
structure VoiceModel where
  token : String
  title : String
deriving DecidableEq

/-- The tier-1 predicate of `findModelByName` (`src/index.js` 204-206):
`m.title && m.title.toLowerCase() === nameLower`. -/
def titleExact (name : String) (m : VoiceModel) : Bool :=
  !(m.title == "") && (strToLower m.title == strToLower name)

/-- The tier-2 predicate of `findModelByName` (`src/index.js` 210-212):
`m.title && m.title.toLowerCase().includes(nameLower)`. -/
def titleHas (name : String) (m : VoiceModel) : Bool :=
  !(m.title == "") && strContains (strToLower m.title) (strToLower name)

/-- The selection logic of `FakeYouTTS.findModelByName` (`src/index.js`
196-220) applied to the search-result sequence `models`. -/
def findModelByName (name : String) (models : List VoiceModel) : Option VoiceModel :=
  if models.isEmpty then none
  else
    match models.find? (titleExact name) with
    | some m => some m
    | none =>
      match models.find? (titleHas name) with
      | some m => some m
      | none => models.head?

/-- First-match lookup in an association list.  Models reading a property of
the `_modelCache` JavaScript object (insertion is modelled by prepending, so
first-match lookup realises overwrite semantics). -/
def alLookup {α : Type} : List (String × α) → String → Option α
  | [], _ => none
  | (k, v) :: rest, key => if k == key then some v else alLookup rest key

/-- The `_modelCache` object of `FakeYouTTS` (`src/index.js` 81).  The object
holds search results under keys `"search_" ++ term` (written by `findModels`)
and single models under their token (written by `getModel`); the two key
families are kept in separate association lists. -/
structure CacheSt where
  searchCache : List (String × List VoiceModel)
  tokenCache : List (String × VoiceModel)
deriving DecidableEq

/-- From `src/index.js` 133-135: an empty/blank search term is normalized to the
broad default query `"a"` before the remote call. -/
def normTerm (t : String) : String := if strTrim t = "" then "a" else t

/-- Embeds `FakeYouTTS.findModels` (`src/index.js` 124-154).  `remote` is the
`fetchTtsModels` oracle; `none` covers both a thrown error and a falsy
result (both reach the `catch`/`throw` path and yield `[]` uncached).
Results: the returned sequence, the updated cache, and the list of search
terms actually sent to the remote provider. -/
def findModels (term : String) (st : CacheSt) (remote : String → Option (List VoiceModel)) :
    List VoiceModel × CacheSt × List String :=
  match alLookup st.searchCache ("search_" ++ term) with
  | some ms => (ms, st, [])
  | none =>
    match remote (normTerm term) with
    | none => ([], st, [normTerm term])
    | some ms =>
      (ms, { st with searchCache := ("search_" ++ term, ms) :: st.searchCache }, [normTerm term])

/-- Embeds `FakeYouTTS.getModel` (`src/index.js` 159-181): token-cache lookup, then a
broad search (`findModels ""`) and a linear scan for the token. -/
def getModel (token : String) (st : CacheSt) (remote : String → Option (List VoiceModel)) :
    Option VoiceModel × CacheSt × List String :=
  match alLookup st.tokenCache token with
  | some m => (some m, st, [])
  | none =>
    match findModels "" st remote with
    | (ms, st1, calls) =>
      match ms.find? (fun m => m.token == token) with
      | some m => (some m, { st1 with tokenCache := (token, m) :: st1.tokenCache }, calls)
      | none => (none, st1, calls)

/-- Embeds `FakeYouTTS.findModelByName` (`src/index.js` 187-225) including the search
step.  `loginThrows = true` models the guarded `await this.login()` throwing,
which the surrounding `catch` turns into `null`. -/
def findModelByNameFull (name : String) (st : CacheSt)
    (remote : String → Option (List VoiceModel)) (loginThrows : Bool) :
    Option VoiceModel × CacheSt × List String :=
  if loginThrows then (none, st, [])
  else
    match findModels name st remote with
    | (ms, st1, calls) => (findModelByName name ms, st1, calls)

/-- One response observed by the polling loop of `src/test.js` 52-82:
either the JSON body (`success`, `state.status`,
`state.maybe_public_bucket_wav_audio_path`; a missing path is `""`) or a
thrown request error (`err`), which the loop's `catch` swallows. -/
inductive PollResp where
  | ok (success : Bool) (status : String) (path : String)
  | err
deriving DecidableEq

/-- The loop-exit condition of `pollUntilComplete` (`src/test.js` 65-71): the
loop sets `isComplete` iff `data.success && data.state.status ===
'complete_success' && data.state.maybe_public_bucket_wav_audio_path`, or
`data.success && data.state.status === 'failed'`. -/
def stopsPoll : PollResp → Bool
  | PollResp.ok s st p => s && ((st == "complete_success" && !(p == "")) || st == "failed")
  | PollResp.err => false

/-- Does the response carry a terminal job status (`complete_success` or
`failed`), in the sense of the specification? -/
def terminalStatus : PollResp → Bool
  | PollResp.ok _ st _ => st == "complete_success" || st == "failed"
  | PollResp.err => false

/-- Fuel-indexed unfolding of the `while (!isComplete)` loop of
`pollUntilComplete` (`src/test.js` 55-81).  `resp j` is the provider's answer
to the `j`-th status query (0-indexed); `i` is the index of the next query.
`some k` means the loop terminated having issued exactly `k` queries;
`none` means the loop is still running after `fuel` iterations. -/
def pollRun (resp : Nat → PollResp) : Nat → Nat → Option Nat
  | 0, _ => none
  | fuel + 1, i => if stopsPoll (resp i) then some (i + 1) else pollRun resp fuel (i + 1)

/-- Number of status queries issued by `pollUntilComplete` within `fuel` loop
iterations, starting from the first query. -/
def pollCount (resp : Nat → PollResp) (fuel : Nat) : Option Nat := pollRun resp fuel 0

/-- The wrapped error message thrown by `generateTTS` when retries are
exhausted (`src/index.js` 250). -/
def wrapFailMsg (cfg : Nat) (msg : String) : String :=
  "TTS generation failed after " ++ toString cfg ++ " attempts: " ++ msg

/-- The `while (retries >= 0)` retry loop of `FakeYouTTS.generateTTS`
(`src/index.js` 239-256).  `infer text j` is the outcome of the `j`-th
`model.infer(text)` attempt; `n` is the current value of the `retries`
counter, `i` the index of the next attempt, `cfg` the configured
`options.retries`, `delay` the configured `options.retryDelay`.
Results: the outcome, the number of attempts made, the argument passed to
`model.infer` at each attempt, and the sleeps performed between attempts. -/
def genLoop {α : Type} (infer : String → Nat → Except String α) (text : String)
    (cfg delay : Nat) : Nat → Nat → Except String α × Nat × List String × List Nat
  | 0, i =>
    match infer text i with
    | Except.ok v => (Except.ok v, i + 1, [text], [])
    | Except.error e => (Except.error (wrapFailMsg cfg e), i + 1, [text], [])
  | m + 1, i =>
    match infer text i with
    | Except.ok v => (Except.ok v, i + 1, [text], [])
    | Except.error _ =>
      match genLoop infer text cfg delay m (i + 1) with
      | (r, a, args, ds) => (r, a, text :: args, delay :: ds)

/-- Embeds `FakeYouTTS.generateTTS` (`src/index.js` 230-257): the two validation
checks followed by the retry loop with `retries = options.retries`. -/
def generateTTS {α : Type} (modelPresent : Bool) (text : String) (cfg delay : Nat)
    (infer : String → Nat → Except String α) :
    Except String α × Nat × List String × List Nat :=
  if !modelPresent then (Except.error "No model provided for TTS generation", 0, [], [])
  else if strTrim text = "" then (Except.error "No text provided for TTS generation", 0, [], [])
  else genLoop infer text cfg delay cfg 0

/-- The FakeYou `POST /tts/inference` response body (`success`,
`inference_job_token`). -/
structure SubmitResp where
  success : Bool
  inference_job_token : String
deriving DecidableEq

/-- The submission payload built in `src/unnamed/part_000` 60-64. -/
structure Payload where
  tts_model_token : String
  inference_text : String
  uuid_idempotency_token : String
deriving DecidableEq

/-- The value returned by the `convertTextToSpeech` callable on remote
success (`src/unnamed/part_000` 76-80). -/
structure CtsResult where
  success : Bool
  inferenceToken : String
  status : String
deriving DecidableEq

/-- An error raised inside the `try` block of `convertTextToSpeech`: an
`HttpsError` with its code, or a plain JavaScript error (e.g. thrown by
`axios`) carrying only a message. -/
inductive InnerErr where
  | https (code msg : String)
  | js (msg : String)
deriving DecidableEq

/-- The `HttpsError` surfaced to the caller of the callable function. -/
structure FnError where
  code : String
  message : String
deriving DecidableEq

/-- Accessor for `error.message` of an inner error. -/
def errMessage : InnerErr → String
  | InnerErr.https _ m => m
  | InnerErr.js m => m

/-- The `try` block of `convertTextToSpeech` (`src/unnamed/part_000` 40-86):
input validation, auth-token check, payload construction with one fresh
uuid (`supply 0`), a single `axios.post`, and the handling of the response.
Results: outcome, the posted payloads, and the number of uuid draws. -/
def ctsInner (text modelName authToken : String) (supply : Nat → String)
    (remote : Payload → Except String SubmitResp) :
    Except InnerErr CtsResult × List Payload × Nat :=
  if text = "" ∨ modelName = "" then
    (Except.error (InnerErr.https "invalid-argument" "Text and model name are required"), [], 0)
  else if authToken = "" then
    (Except.error (InnerErr.https "internal" "FakeYou authentication token not configured"),
      [], 0)
  else
    match remote ⟨modelName, text, supply 0⟩ with
    | Except.error msg => (Except.error (InnerErr.js msg), [⟨modelName, text, supply 0⟩], 1)
    | Except.ok resp =>
      if resp.success then
        (Except.ok ⟨true, resp.inference_job_token, "processing"⟩,
          [⟨modelName, text, supply 0⟩], 1)
      else
        (Except.error (InnerErr.https "internal" "Failed to initiate text-to-speech conversion"),
          [⟨modelName, text, supply 0⟩], 1)

/-- The `convertTextToSpeech` callable (`src/unnamed/part_000` 39-95): the
`try` block wrapped by the `catch` that rethrows every error as
`HttpsError("internal", error.message || "Unknown error")`. -/
def convertTextToSpeech (text modelName authToken : String) (supply : Nat → String)
    (remote : Payload → Except String SubmitResp) :
    Except FnError CtsResult × List Payload × Nat :=
  match ctsInner text modelName authToken supply remote with
  | (Except.ok v, calls, keys) => (Except.ok v, calls, keys)
  | (Except.error e, calls, keys) =>
    (Except.error ⟨"internal", if errMessage e = "" then "Unknown error" else errMessage e⟩,
      calls, keys)

/-! Concrete oracles and inputs used by counterexamples and witnesses. -/

/-- A provider that always answers `success` with status `pending`. -/
def pendingOracle : Nat → PollResp := fun _ => PollResp.ok true "pending" ""

/-- A provider whose first answer has terminal status `complete_success` but
no audio path, and whose later answers are `failed`. -/
def c3oracle : Nat → PollResp :=
  fun n => if n == 0 then PollResp.ok true "complete_success" ""
           else PollResp.ok true "failed" ""

/-- A provider that immediately answers `failed`. -/
def stopOracle : Nat → PollResp := fun _ => PollResp.ok true "failed" ""

/-- An inference attempt that always throws `boom`. -/
def alwaysFailU : String → Nat → Except String Unit := fun _ _ => Except.error "boom"

/-- A deterministic uuid supply. -/
def supplyEx : Nat → String := fun n => "uuid-" ++ toString n

/-- A provider that accepts every submission with job token `jobtok1`. -/
def remoteOkEx : Payload → Except String SubmitResp := fun _ => Except.ok ⟨true, "jobtok1"⟩

/-- A model search that always fails/throws. -/
def remoteNoneEx : String → Option (List VoiceModel) := fun _ => none

/-- A model search that always returns one model titled `Mario`. -/
def remoteSomeEx : String → Option (List VoiceModel) := fun _ => some [⟨"t1", "Mario"⟩]

/-- The empty model cache (a fresh `FakeYouTTS` instance). -/
def emptyCache : CacheSt := ⟨[], []⟩

/-- An inference whose only path is a legacy storage URL with a `/media/`
segment that does not end in `.wav`. -/
def cexInference : Inference := ⟨"", "https://storage.googleapis.com/media/old/file.mp3"⟩

/-- A search-result sequence whose first model has an empty title. -/
def c2models : List VoiceModel := [⟨"tok_a", ""⟩, ⟨"tok_b", "x"⟩]

/-- The spec §8 example result set for `findByName("Mario")`. -/
def c2wModels : List VoiceModel :=
  [⟨"t1", "Luigi"⟩, ⟨"t2", "Super Mario Bros"⟩, ⟨"t3", "Mario"⟩]

/-! Theorems. -/

/-- C1 counterexample: an inference with no CDN-path field whose legacy path
is a `storage.googleapis.com` URL containing a `/media/` segment (so the
claim's "/media/..." suffix exists) but not ending in `.wav`.  `getAudioUrl`
returns the legacy URL untouched — neither the CDN-rewritten equivalent
(`CDN_URL` plus the `/media/...` suffix) nor `null` — refuting the claim at
this input. -/
theorem c1_cex :
    cexInference.publicBucketWavAudioPath = "" ∧
    strContains cexInference.resourceUrl "storage.googleapis.com" = true ∧
    getAudioUrl (some cexInference) = some "https://storage.googleapis.com/media/old/file.mp3" ∧
    getAudioUrl (some cexInference) ≠ some (CDN_URL ++ "/media/old/file.mp3") ∧
    getAudioUrl (some cexInference) ≠ none := by
  refine ⟨rfl, by decide, by decide, by decide, by decide⟩

/-- C1 (amended): for every inference object, `getAudioUrl` (a) returns the
CDN origin prefixed to the CDN-path field whenever that field is non-empty,
regardless of the legacy field; (b) when the CDN-path field is absent and the
legacy URL is a storage-domain URL on which the `/media/...*.wav` extraction
succeeds, returns the CDN origin plus the extracted suffix; (c) returns any
other non-empty legacy URL unchanged (storage-domain URLs on which the
extraction fails included); (d) returns null when both fields are absent. -/
theorem c1_precedence (i : FakeYouJS.Inference) :
    (i.publicBucketWavAudioPath ≠ "" →
      getAudioUrl (some i) = some (CDN_URL ++ i.publicBucketWavAudioPath)) ∧
    (i.publicBucketWavAudioPath = "" → i.resourceUrl ≠ "" →
      strContains i.resourceUrl "storage.googleapis.com" = true →
      ∀ s, matchMediaWav i.resourceUrl = some s →
        getAudioUrl (some i) = some (CDN_URL ++ s)) ∧
    (i.publicBucketWavAudioPath = "" → i.resourceUrl ≠ "" →
      (strContains i.resourceUrl "storage.googleapis.com" = false ∨
        matchMediaWav i.resourceUrl = none) →
      getAudioUrl (some i) = some i.resourceUrl) ∧
    (i.publicBucketWavAudioPath = "" → i.resourceUrl = "" →
      getAudioUrl (some i) = none) := by
  refine ⟨?_, ?_, ?_, ?_⟩
  · intro h
    simp [getAudioUrl, h]
  · intro h1 h2 h3 s hs
    simp [getAudioUrl, h1, h2, h3, hs]
  · intro h1 h2 h3
    rcases h3 with h3 | h3
    · simp [getAudioUrl, h1, h2, h3]
    · rcases hcon : strContains i.resourceUrl "storage.googleapis.com" with _ | _
      · simp [getAudioUrl, h1, h2, hcon]
      · simp [getAudioUrl, h1, h2, hcon, h3]
  · intro h1 h2
    simp [getAudioUrl, h1, h2]

/-- C1 witness: the four cases of `c1_precedence` evaluated at concrete
inference objects. -/
theorem c1_precedence_w :
    getAudioUrl (some ⟨"/tts/a.wav", "https://storage.googleapis.com/media/b.wav"⟩) =
      some "https://cdn-2.fakeyou.com/tts/a.wav" ∧
    getAudioUrl (some ⟨"", "https://storage.googleapis.com/media/b.wav"⟩) =
      some "https://cdn-2.fakeyou.com/media/b.wav" ∧
    getAudioUrl (some ⟨"", "https://example.com/c.wav"⟩) = some "https://example.com/c.wav" ∧
    getAudioUrl (some ⟨"", ""⟩) = none := by
  refine ⟨?_, ?_, ?_, ?_⟩
  · exact (c1_precedence ⟨"/tts/a.wav", "https://storage.googleapis.com/media/b.wav"⟩).1
      (by decide)
  · exact (c1_precedence ⟨"", "https://storage.googleapis.com/media/b.wav"⟩).2.1
      rfl (by decide) (by decide) "/media/b.wav" (by decide)
  · exact (c1_precedence ⟨"", "https://example.com/c.wav"⟩).2.2.1
      rfl (by decide) (Or.inl (by decide))
  · exact (c1_precedence ⟨"", ""⟩).2.2.2 rfl rfl

/-- Helper: `List.find?` returns `m` when everything before `m` tests false
and `m` tests true. -/
theorem find_first {α : Type} (p : α → Bool) (l1 : List α) (m : α) (l2 : List α)
    (h1 : ∀ x ∈ l1, p x = false) (hm : p m = true) :
    List.find? p (l1 ++ m :: l2) = some m := by
  induction l1 with
  | nil =>
    simp only [List.nil_append, List.find?_cons]
    rw [hm]
  | cons a as ih =>
    have ha : p a = false := h1 a (List.mem_cons_self a as)
    have step : List.find? p ((a :: as) ++ m :: l2) = List.find? p (as ++ m :: l2) := by
      simp [List.find?_cons, ha]
    rw [step]
    exact ih (fun x hx => h1 x (List.mem_cons_of_mem a hx))

/-- C2 counterexample: with name `""` and a result sequence whose first model
has the (empty) title `""`, the first model's title equals the name
case-insensitively, yet `findModelByName` skips it (the code requires the
title to be truthy) and returns the second model via the substring tier, so
the function does not return the first case-insensitive exact title match. -/
theorem c2_cex :
    c2models.head? = some ⟨"tok_a", ""⟩ ∧
    strToLower (VoiceModel.title ⟨"tok_a", ""⟩) = strToLower "" ∧
    findModelByName "" c2models = some ⟨"tok_b", "x"⟩ ∧
    (⟨"tok_b", "x"⟩ : VoiceModel) ≠ ⟨"tok_a", ""⟩ := by
  refine ⟨rfl, rfl, by decide, by decide⟩

/-- C2 (amended): `findModelByName` returns the first model whose title is
non-empty and equals the name case-insensitively; failing that, the first
model whose title is non-empty and contains the name case-insensitively as a
substring; failing that, the first element of the sequence whenever the
sequence is non-empty (never null in that case); and null exactly when the
search returned no results.  (Only the non-empty-title qualification is added
to the claim: the code's truthiness guard skips models with missing/empty
titles in the first two tiers.) -/
theorem c2_tiebreak (name : String) (models : List VoiceModel) :
    (models = [] → findModelByName name models = none) ∧
    (models ≠ [] → findModelByName name models ≠ none) ∧
    (∀ l1 m l2, models = l1 ++ m :: l2 → titleExact name m = true →
      (∀ x ∈ l1, titleExact name x = false) → findModelByName name models = some m) ∧
    ((∀ x ∈ models, titleExact name x = false) →
      ∀ l1 m l2, models = l1 ++ m :: l2 → titleHas name m = true →
      (∀ x ∈ l1, titleHas name x = false) → findModelByName name models = some m) ∧
    ((∀ x ∈ models, titleExact name x = false) →
      (∀ x ∈ models, titleHas name x = false) →
      ∀ m l, models = m :: l → findModelByName name models = some m) := by
  refine ⟨?_, ?_, ?_, ?_, ?_⟩
  · intro h
    simp [findModelByName, h]
  · intro h
    have hne : models.isEmpty = false := by
      cases models with
      | nil => exact absurd rfl h
      | cons a l => rfl
    unfold findModelByName
    rw [hne]
    cases h1 : models.find? (titleExact name) with
    | some m => simp
    | none =>
      cases h2 : models.find? (titleHas name) with
      | some m => simp
      | none =>
        cases models with
        | nil => exact absurd rfl h
        | cons a l => simp [List.head?]
  · intro l1 m l2 hsplit hm h1
    subst hsplit
    have hne : (l1 ++ m :: l2).isEmpty = false := by
      cases l1 with
      | nil => rfl
      | cons a as => rfl
    unfold findModelByName
    rw [hne, find_first (titleExact name) l1 m l2 h1 hm]
    simp
  · intro hall l1 m l2 hsplit hm h1
    subst hsplit
    have hne : (l1 ++ m :: l2).isEmpty = false := by
      cases l1 with
      | nil => rfl
      | cons a as => rfl
    have hnone : (l1 ++ m :: l2).find? (titleExact name) = none := by
      rw [List.find?_eq_none]
      intro x hx
      simp [hall x hx]
    unfold findModelByName
    rw [hne, hnone, find_first (titleHas name) l1 m l2 h1 hm]
    simp
  · intro hall1 hall2 m l hsplit
    subst hsplit
    have hnone1 : (m :: l).find? (titleExact name) = none := by
      rw [List.find?_eq_none]
      intro x hx
      simp [hall1 x hx]
    have hnone2 : (m :: l).find? (titleHas name) = none := by
      rw [List.find?_eq_none]
      intro x hx
      simp [hall2 x hx]
    unfold findModelByName
    rw [hnone1, hnone2]
    rfl

/-- C2 witness: the spec §8 example — `findByName "Mario"` on
`[Luigi, Super Mario Bros, Mario]` returns the exact match `Mario`
(first tier), not the substring match. -/
theorem c2_tiebreak_w :
    findModelByName "Mario" c2wModels = some ⟨"t3", "Mario"⟩ := by
  exact (c2_tiebreak "Mario" c2wModels).2.2.1
    [⟨"t1", "Luigi"⟩, ⟨"t2", "Super Mario Bros"⟩] ⟨"t3", "Mario"⟩ [] rfl
    (by decide) (by decide)

/-- Helper: if no query in `[start, i)` satisfies the loop-exit condition and
query `i` does, the loop terminates having issued exactly `i + 1` queries. -/
theorem pollRun_first_stop (resp : Nat → PollResp) :
    ∀ fuel start i, start ≤ i → i < start + fuel →
      (∀ j, start ≤ j → j < i → stopsPoll (resp j) = false) →
      stopsPoll (resp i) = true →
      pollRun resp fuel start = some (i + 1) := by
  intro fuel
  induction fuel with
  | zero =>
    intro start i hsi hlt
    omega
  | succ f ih =>
    intro start i hsi hlt hbefore hstop
    by_cases hstart : start = i
    · subst hstart
      simp [pollRun, hstop]
    · have hlt2 : start < i := by omega
      have hfalse : stopsPoll (resp start) = false := hbefore start (by omega) hlt2
      have : pollRun resp f (start + 1) = some (i + 1) :=
        ih (start + 1) i (by omega) (by omega)
          (fun j hj1 hj2 => hbefore j (by omega) hj2) hstop
      simp [pollRun, hfalse, this]

/-- C3 counterexample: the first status query observes `success: true` with
the terminal status `complete_success` but no audio path; the loop does not
stop there — it issues a second status query (total query count 2), refuting
"stops at the first status query that observes a terminal status and issues
no further status query after that observation". -/
theorem c3_cex :
    terminalStatus (c3oracle 0) = true ∧ pollCount c3oracle 5 = some 2 := by
  refine ⟨by decide, by decide⟩

/-- C3 (amended): the polling loop stops at the first status query whose
response satisfies the loop-exit condition — `success` and either
(`complete_success` with a present audio path) or `failed` — and issues no
further status query after that observation (the total number of queries is
exactly the index of that first satisfying response plus one).  A response
with terminal status `complete_success` but no audio path, or with a falsy
`success` flag, does not stop the loop. -/
theorem c3_stops_first (resp : Nat → PollResp) (i fuel : Nat)
    (hbefore : ∀ j, j < i → stopsPoll (resp j) = false)
    (hstop : stopsPoll (resp i) = true)
    (hfuel : i < fuel) :
    pollCount resp fuel = some (i + 1) := by
  exact pollRun_first_stop resp fuel 0 i (Nat.zero_le i) (by omega)
    (fun j _ hj => hbefore j hj) hstop

/-- C3 witness: a provider that immediately answers `failed` makes the loop
stop after exactly one query. -/
theorem c3_stops_first_w : pollCount stopOracle 1 = some 1 := by
  exact c3_stops_first stopOracle 0 1
    (fun j hj => absurd hj (by omega)) (by decide) (by decide)

/-- Helper: with an always-`pending` provider the loop body never exits. -/
theorem pollRun_pending_none : ∀ fuel i, pollRun pendingOracle fuel i = none := by
  intro fuel
  induction fuel with
  | zero => intro i; rfl
  | succ f ih =>
    intro i
    have hfalse : stopsPoll (pendingOracle i) = false := rfl
    simp [pollRun, hfalse, ih]

/-- C4: on a job for which the remote provider never reports a satisfying
terminal response (here: always `success` with status `pending`), the polling
loop of `src/test.js` never terminates — after any number `fuel` of loop
iterations it is still polling.  The code has no `max_attempts` bound and no
`TimeoutError`: the claimed bounded polling does not exist in the code. -/
theorem c4_unbounded : ∀ fuel, pollCount pendingOracle fuel = none := by
  intro fuel
  exact pollRun_pending_none fuel 0

/-- Helper: on valid input, the `try` block of `convertTextToSpeech` draws
exactly one uuid and posts exactly one payload, which carries that uuid. -/
theorem ctsInner_valid_calls (text modelName authToken : String) (supply : Nat → String)
    (remote : Payload → Except String SubmitResp)
    (ht : text ≠ "") (hm : modelName ≠ "") (ha : authToken ≠ "") :
    (ctsInner text modelName authToken supply remote).2 =
      ([⟨modelName, text, supply 0⟩], 1) := by
  unfold ctsInner
  rw [if_neg (by simp [ht, hm]), if_neg ha]
  cases remote ⟨modelName, text, supply 0⟩ with
  | error msg => rfl
  | ok resp =>
    cases hs : resp.success with
    | false => simp [hs]
    | true => simp [hs]

/-- Helper: the `catch` wrapper changes only the outcome, not the trace of
posted payloads or the number of uuid draws. -/
theorem cts_keeps_trace (text modelName authToken : String) (supply : Nat → String)
    (remote : Payload → Except String SubmitResp) :
    (convertTextToSpeech text modelName authToken supply remote).2 =
      (ctsInner text modelName authToken supply remote).2 := by
  unfold convertTextToSpeech
  rcases ctsInner text modelName authToken supply remote with ⟨r, calls, keys⟩
  cases r <;> rfl

/-- Helper: every attempt of the `generateTTS` retry loop passes exactly the
same argument (the text) to `model.infer`; the loop generates nothing fresh
per attempt. -/
theorem genLoop_args {α : Type} (infer : String → Nat → Except String α) (text : String)
    (cfg delay : Nat) : ∀ n i, ∀ s ∈ (genLoop infer text cfg delay n i).2.2.1, s = text := by
  intro n
  induction n with
  | zero =>
    intro i s hs
    cases h : infer text i with
    | ok v =>
      simp [genLoop, h] at hs
      exact hs
    | error e =>
      simp [genLoop, h] at hs
      exact hs
  | succ m ih =>
    intro i s hs
    cases h : infer text i with
    | ok v =>
      simp [genLoop, h] at hs
      exact hs
    | error e =>
      rcases hg : genLoop infer text cfg delay m (i + 1) with ⟨r, a, args, ds⟩
      simp [genLoop, h, hg] at hs
      rcases hs with hs | hs
      · exact hs
      · have hmem := ih (i + 1) s
        rw [hg] at hmem
        exact hmem hs

/-- C5: for every logical submission request (one invocation of the
`convertTextToSpeech` callable with non-empty text, model name and auth
token), exactly one idempotency key is generated (`supply` is consumed
exactly once) and every payload sent to the provider carries that key;
moreover the repository's only local retry loop (`generateTTS`) passes the
identical argument to every attempt and generates no key of its own. -/
theorem c5_single_key (text modelName authToken : String) (supply : Nat → String)
    (remote : Payload → Except String SubmitResp)
    (ht : text ≠ "") (hm : modelName ≠ "") (ha : authToken ≠ "") :
    (convertTextToSpeech text modelName authToken supply remote).2.2 = 1 ∧
    (∀ p ∈ (convertTextToSpeech text modelName authToken supply remote).2.1,
      p.uuid_idempotency_token = supply 0) ∧
    (∀ (α : Type) (infer : String → Nat → Except String α) (cfg delay n i : Nat),
      ∀ s ∈ (genLoop infer text cfg delay n i).2.2.1, s = text) := by
  have h2 := cts_keeps_trace text modelName authToken supply remote
  have h1 := ctsInner_valid_calls text modelName authToken supply remote ht hm ha
  refine ⟨?_, ?_, ?_⟩
  · rw [show (convertTextToSpeech text modelName authToken supply remote).2.2 =
        ((convertTextToSpeech text modelName authToken supply remote).2).2 from rfl, h2, h1]
  · intro p hp
    rw [show (convertTextToSpeech text modelName authToken supply remote).2.1 =
        ((convertTextToSpeech text modelName authToken supply remote).2).1 from rfl, h2, h1]
      at hp
    simp at hp
    rw [hp]
  · intro α infer cfg delay n i s hs
    exact genLoop_args infer text cfg delay n i s hs

/-- C5 witness: the concrete submission draws exactly one uuid. -/
theorem c5_single_key_w :
    (convertTextToSpeech "hi" "m" "t" supplyEx remoteOkEx).2.2 = 1 :=
  (c5_single_key "hi" "m" "t" supplyEx remoteOkEx
    (by decide) (by decide) (by decide)).1

/-- C6 counterexample: a submission the provider accepts returns a result
whose status field is the string `"processing"`, not `"pending"` as the
claim states (the job token is held correctly). -/
theorem c6_cex :
    (convertTextToSpeech "hi" "m" "t" supplyEx remoteOkEx).1 =
      Except.ok ⟨true, "jobtok1", "processing"⟩ ∧
    ("processing" : String) ≠ "pending" := by
  refine ⟨rfl, by decide⟩

/-- C6 (amended): for every submission the remote provider accepts
(`response.success` is true), `convertTextToSpeech` returns a successful
result holding the provider-issued job token with status `"processing"` (the
code's label for the not-yet-terminal state; the claim said `"pending"`). -/
theorem c6_accepted (text modelName authToken : String) (supply : Nat → String)
    (remote : Payload → Except String SubmitResp) (resp : SubmitResp)
    (ht : text ≠ "") (hm : modelName ≠ "") (ha : authToken ≠ "")
    (hr : remote ⟨modelName, text, supply 0⟩ = Except.ok resp)
    (hs : resp.success = true) :
    (convertTextToSpeech text modelName authToken supply remote).1 =
      Except.ok ⟨true, resp.inference_job_token, "processing"⟩ := by
  have hinner : (ctsInner text modelName authToken supply remote).1 =
      Except.ok ⟨true, resp.inference_job_token, "processing"⟩ := by
    unfold ctsInner
    rw [if_neg (by simp [ht, hm]), if_neg ha, hr]
    simp [hs]
  unfold convertTextToSpeech
  rcases hc : ctsInner text modelName authToken supply remote with ⟨r, calls, keys⟩
  rw [hc] at hinner
  simp at hinner
  rw [hinner]

/-- C6 witness: the amended statement evaluated on a provider that accepts
with job token `jobtok1`. -/
theorem c6_accepted_w :
    (convertTextToSpeech "hi" "m" "t" supplyEx remoteOkEx).1 =
      Except.ok ⟨true, "jobtok1", "processing"⟩ :=
  c6_accepted "hi" "m" "t" supplyEx remoteOkEx ⟨true, "jobtok1"⟩
    (by decide) (by decide) (by decide) rfl rfl

/-- C7: on empty text the callable fails at the validation step before any
remote call (no payload posted, no uuid drawn) and nothing is retried
(`generateTTS` likewise rejects empty text with zero attempts).  But the
error kind the caller observes is `"internal"`: the blanket `catch` of
`convertTextToSpeech` re-wraps the `"invalid-argument"` `HttpsError` raised
at the validation site, so the advertised `ValidationError` kind is lost
(only the message survives). -/
theorem c7_validation_eval :
    ctsInner "" "m" "t" supplyEx remoteOkEx =
      (Except.error (InnerErr.https "invalid-argument" "Text and model name are required"),
        [], 0) ∧
    convertTextToSpeech "" "m" "t" supplyEx remoteOkEx =
      (Except.error ⟨"internal", "Text and model name are required"⟩, [], 0) ∧
    generateTTS true "" 3 5 alwaysFailU =
      (Except.error "No text provided for TTS generation", 0, [], []) ∧
    ("internal" : String) ≠ "invalid-argument" := by
  refine ⟨rfl, rfl, rfl, by decide⟩

/-- C8: once a search for a term has completed successfully (the remote
search for the normalized term does not fail), a second `findModels` call
with the exact same term returns the same result sequence, leaves the cache
unchanged, and sends no request to the remote provider (empty call trace);
results are cached under the exact search term. -/
theorem c8_cached (term : String) (st : CacheSt)
    (remote : String → Option (List VoiceModel))
    (h : remote (normTerm term) ≠ none) :
    findModels term ((findModels term st remote).2.1) remote =
      ((findModels term st remote).1, (findModels term st remote).2.1, []) := by
  cases hl : alLookup st.searchCache ("search_" ++ term) with
  | some ms => simp [findModels, hl]
  | none =>
    cases hr : remote (normTerm term) with
    | none => exact absurd hr h
    | some ms =>
      have hfirst : findModels term st remote =
          (ms, { st with searchCache := ("search_" ++ term, ms) :: st.searchCache },
            [normTerm term]) := by
        simp [findModels, hl, hr]
      rw [hfirst]
      show findModels term _ remote = (ms, _, [])
      unfold findModels
      have hhit : alLookup (("search_" ++ term, ms) :: st.searchCache) ("search_" ++ term) =
          some ms := by
        unfold alLookup
        rw [if_pos (beq_self_eq_true _)]
      rw [hhit]

/-- C8 witness: a concrete repeated search serves from cache with no remote
call. -/
theorem c8_cached_w :
    findModels "mario" ((findModels "mario" emptyCache remoteSomeEx).2.1) remoteSomeEx =
      ((findModels "mario" emptyCache remoteSomeEx).1,
        (findModels "mario" emptyCache remoteSomeEx).2.1, []) :=
  c8_cached "mario" emptyCache remoteSomeEx (by decide)

/-- Helper: when every inference attempt fails, the retry loop started with
`n` remaining retries at attempt index `i` makes `n + 1` further attempts,
sleeps `n` times, and surfaces the last attempt's error wrapped with the
configured retry count. -/
theorem genLoop_allfail {α : Type} (infer : String → Nat → Except String α) (text : String)
    (cfg delay : Nat) (failMsg : Nat → String)
    (hf : ∀ j, infer text j = Except.error (failMsg j)) :
    ∀ n i, genLoop infer text cfg delay n i =
      (Except.error (wrapFailMsg cfg (failMsg (i + n))), i + n + 1,
        List.replicate (n + 1) text, List.replicate n delay) := by
  intro n
  induction n with
  | zero =>
    intro i
    simp [genLoop, hf i, List.replicate]
  | succ m ih =>
    intro i
    have h1 : i + 1 + m = i + (m + 1) := by omega
    simp only [genLoop, hf i]
    rw [ih (i + 1)]
    simp only [h1, List.replicate_succ]

/-- C9 counterexample: with `retries` configured to 3 and every attempt
failing, `generateTTS` makes 4 attempts but reports "failed after 3
attempts" — the reported attempt count does not equal the number of attempts
actually made. -/
theorem c9_cex :
    (generateTTS true "hi" 3 7 alwaysFailU).1 =
      Except.error "TTS generation failed after 3 attempts: boom" ∧
    (generateTTS true "hi" 3 7 alwaysFailU).2.1 = 4 ∧
    (3 : Nat) ≠ 4 := by
  refine ⟨rfl, rfl, by decide⟩

/-- C9 (amended): when every attempt fails, `generateTTS` makes the
configured number of retries after the initial attempt (`cfg + 1` attempts in
total) with the fixed configured delay between consecutive attempts
(`cfg` sleeps of `delay`), and surfaces the last attempt's error wrapped with
the configured retry count `cfg` — which is one fewer than the number of
attempts actually made. -/
theorem c9_retries {α : Type} (text : String) (cfg delay : Nat)
    (infer : String → Nat → Except String α) (failMsg : Nat → String)
    (htext : strTrim text ≠ "")
    (hf : ∀ j, infer text j = Except.error (failMsg j)) :
    generateTTS true text cfg delay infer =
      (Except.error (wrapFailMsg cfg (failMsg cfg)), cfg + 1,
        List.replicate (cfg + 1) text, List.replicate cfg delay) := by
  unfold generateTTS
  rw [if_neg (by decide), if_neg htext]
  simpa using genLoop_allfail infer text cfg delay failMsg hf cfg 0

/-- C9 witness: the amended statement evaluated at `retries = 3`,
`retryDelay = 7`, all attempts failing with `boom`. -/
theorem c9_retries_w :
    generateTTS true "hi" 3 7 alwaysFailU =
      (Except.error (wrapFailMsg 3 "boom"), 4, List.replicate 4 "hi",
        List.replicate 3 7) :=
  c9_retries "hi" 3 7 alwaysFailU (fun _ => "boom") (by decide) (fun _ => rfl)

/-- C10: when the remote model search fails or throws (and the caches hold
nothing for the given keys), the lookup operations propagate no exception:
`findModels` returns the empty sequence and caches nothing (state unchanged),
`getModel` returns null with the state unchanged, and `findModelByName`
returns null with the state unchanged. -/
theorem c10_no_throw (term token name : String) (st : CacheSt)
    (remote : String → Option (List VoiceModel))
    (h1 : remote (normTerm term) = none)
    (h2 : alLookup st.searchCache ("search_" ++ term) = none)
    (h3 : remote "a" = none)
    (h4 : alLookup st.tokenCache token = none)
    (h5 : alLookup st.searchCache ("search_" ++ "") = none)
    (h6 : remote (normTerm name) = none)
    (h7 : alLookup st.searchCache ("search_" ++ name) = none) :
    findModels term st remote = ([], st, [normTerm term]) ∧
    getModel token st remote = (none, st, ["a"]) ∧
    findModelByNameFull name st remote false = (none, st, [normTerm name]) := by
  have hn0 : normTerm "" = "a" := rfl
  have hfm : findModels term st remote = ([], st, [normTerm term]) := by
    simp [findModels, h2, h1]
  have hfm0 : findModels "" st remote = ([], st, ["a"]) := by
    have h5b : alLookup st.searchCache "search_" = none := by simpa using h5
    simp [findModels, h5b, hn0, h3]
  refine ⟨hfm, ?_, ?_⟩
  · simp [getModel, h4, hfm0, List.find?]
  · have hfmn : findModels name st remote = ([], st, [normTerm name]) := by
      simp [findModels, h7, h6]
    simp [findModelByNameFull, hfmn, findModelByName]

/-- C10 witness: the three fallbacks evaluated with an empty cache and an
always-failing remote search. -/
theorem c10_no_throw_w :
    findModels "x" emptyCache remoteNoneEx = ([], emptyCache, [normTerm "x"]) ∧
    getModel "tk" emptyCache remoteNoneEx = (none, emptyCache, ["a"]) ∧
    findModelByNameFull "nm" emptyCache remoteNoneEx false =
      (none, emptyCache, [normTerm "nm"]) :=
  c10_no_throw "x" "tk" "nm" emptyCache remoteNoneEx rfl rfl rfl rfl rfl rfl rfl

end FakeYouJS
